import Mathlib

/-! Shallow embedding of mock-helper (src/src/mock-helper.c), the setuid
helper of mock: the path-containment checks, the sanitized-environment
builder, the mount/rm/yum/pack subcommand validators and the orphan
reaper.  C strings are modelled at the character level (`String` /
`List Char`); the filesystem seen by `lstat` is an abstract map from
paths to entry types; `execve` is modelled by returning the target
binary, argument vector and preload flag instead of replacing the
process image. -/

namespace MockHelper

/-- Result of the `lstat` used by `check_dir_allowed` / `check_file_allowed`:
the type of the existing entry, or `none` when `lstat` fails. -/
inductive FType where
  | dir
  | file
  | symlink
  | other
deriving DecidableEq, Repr

/-- `strncmp (a, b, n) == 0` for NUL-free C strings: the first `n`
characters agree (comparison stops at the shorter string's terminator,
which the `List.take` on both sides reproduces). -/
def strncmpEq (a b : String) (n : Nat) : Bool :=
  a.toList.take n == b.toList.take n

/-- `s[i]` on the C character array backing `s`: the character at `i`,
and the NUL terminator `'\x00'` at `i = strlen s` (indices beyond the
terminator are undefined behaviour in C; the model extends the
terminator). -/
def charAtC (s : String) (i : Nat) : Char :=
  s.toList.getD i '\x00'

/-- `strstr`: does `needle` occur as a contiguous substring of `hay`? -/
def strstrB (needle : List Char) : List Char → Bool
  | [] => needle.isEmpty
  | c :: rest => needle.isPrefixOf (c :: rest) || strstrB needle rest

/-- `strstr (s, "..") != 0`: does `s` contain `".."` as a substring? -/
def hasDotDot (s : String) : Bool :=
  strstrB ['.', '.'] s.toList

/-- Outcome of `check_allowed` / `check_dir_allowed` / `check_file_allowed`;
every constructor except `ok` is a fatal `error (...)` call. -/
inductive CheckResult where
  | ok
  | outsideRoot
  | traversal
  | trailingSep
  | lookupFailed
  | isSymlink
  | notADir
  | notAFile
deriving DecidableEq, Repr

/-- `check_allowed` (mock-helper.c:83-100): prefix containment under
`rootsdir`, rejection of `".."`, and the trailing-separator check,
which reads `rootsdir[strlen (given) - 1]` exactly as the source does. -/
def check_allowed (rootsdir given : String) : CheckResult :=
  if ¬ strncmpEq given rootsdir rootsdir.length then .outsideRoot
  else if hasDotDot given then .traversal
  else if charAtC rootsdir (given.length - 1) = '/' then .trailingSep
  else .ok

/-- `check_dir_allowed` (mock-helper.c:109-128): `check_allowed`, then
`lstat`; rejects lookup failure, symbolic links, and non-directories. -/
def check_dir_allowed (fs : String → Option FType) (rootsdir given : String) :
    CheckResult :=
  match check_allowed rootsdir given with
  | .ok =>
    match fs given with
    | none => .lookupFailed
    | some t =>
      if t = .symlink then .isSymlink
      else if ¬ t = .dir then .notADir
      else .ok
  | e => e

/-- `ALLOWED_ENV` (mock-helper.c:32-36). -/
def ALLOWED_ENV : List String :=
  ["dist", "ftp_proxy", "http_proxy", "https_proxy", "no_proxy", "PS1"]

/-- `ALLOWED_ENV_SIZE` (mock-helper.c:38). -/
def ALLOWED_ENV_SIZE : Nat := ALLOWED_ENV.length

/-- Capacity of the `env` array in `do_command` (mock-helper.c:165):
`char *env[3 + ALLOWED_ENV_SIZE]`. -/
def envCapacity : Nat := 3 + ALLOWED_ENV_SIZE

/-- The environment vector filled in by `do_command` (mock-helper.c:165-205):
fixed PATH and HOME, the optional SELinux preload (added when SELinux is
enabled and the caller passed `use_selinux_preload == 1`), then for each
allow-listed name set in the caller's environment the `NAME=value` string
recovered by the `ptr -= strlen (...) + 1` arithmetic. -/
def buildEnv (callerEnv : String → Option String)
    (selinuxEnabled usePreload : Bool) : List String :=
  ["PATH=/bin:/usr/bin:/usr/sbin", "HOME=/root"]
    ++ (if selinuxEnabled && usePreload then ["LD_PRELOAD=libselinux-mock.so"] else [])
    ++ ALLOWED_ENV.filterMap (fun n => (callerEnv n).map (fun v => n ++ "=" ++ v))

/-- Outcome of a subcommand validator: `exec` models the final
`do_command (filename, &argv[1], preload)`; every other constructor is a
fatal `error (...)` exit.  `nullDeref` models a read of `argv[argc]`,
the NULL sentinel of the C argument vector. -/
inductive RunResult where
  | exec (filename : String) (args : List String) (preload : Bool)
  | argCount
  | optionsNotAllowed
  | unallowedMountType
  | mountNotAllowed
  | checkFailed (e : CheckResult)
  | chdirFailed
  | nullDeref
deriving DecidableEq, Repr

/-- `do_mount` (mock-helper.c:235-268).  The argument count check is
`argc < 5`; the branch tests are `strncmp` against literal lengths; the
`-t` branches read `argv[5]`, which for `argc = 5` is the NULL sentinel
(modelled via `List.get?`). -/
def do_mount (rootsdir : String) (argv : List String) : RunResult :=
  if argv.length < 5 then .argCount
  else if strncmpEq "-t" (argv.getD 2 "") 2 && strncmpEq "proc" (argv.getD 3 "") 4 then
    match argv.get? 5 with
    | none => .nullDeref
    | some a5 =>
      if ¬ strncmpEq rootsdir a5 rootsdir.length then .mountNotAllowed
      else .exec "/bin/mount" (argv.drop 1) false
  else if strncmpEq "-t" (argv.getD 2 "") 2 && strncmpEq "devpts" (argv.getD 3 "") 6 then
    if argv.length < 5 then .argCount
    else
      match argv.get? 5 with
      | none => .nullDeref
      | some a5 =>
        if ¬ strncmpEq rootsdir a5 rootsdir.length then .mountNotAllowed
        else .exec "/bin/mount" (argv.drop 1) false
  else if strncmpEq "--bind" (argv.getD 2 "") 6 && strncmpEq "/dev" (argv.getD 3 "") 4 then
    if ¬ strncmpEq rootsdir (argv.getD 4 "") rootsdir.length then .mountNotAllowed
    else .exec "/bin/mount" (argv.drop 1) false
  else .unallowedMountType

/-- `do_rm` (mock-helper.c:271-287). -/
def do_rm (fs : String → Option FType) (rootsdir : String) (argv : List String) :
    RunResult :=
  if argv.length < 4 then .argCount
  else if ¬ strncmpEq "-rf" (argv.getD 2 "") 4 then .optionsNotAllowed
  else
    match check_dir_allowed fs rootsdir (argv.getD 3 "") with
    | .ok => .exec "/bin/rm" (argv.drop 1) false
    | e => .checkFailed e

/-- `do_yum` (mock-helper.c:309-325).  The flag test is
`strncmp ("--installroot", argv[2], 6)`: only six characters are
compared. -/
def do_yum (fs : String → Option FType) (rootsdir : String) (argv : List String) :
    RunResult :=
  if argv.length < 4 then .argCount
  else if ¬ strncmpEq "--installroot" (argv.getD 2 "") 6 then .optionsNotAllowed
  else
    match check_dir_allowed fs rootsdir (argv.getD 3 "") with
    | .ok => .exec "/usr/libexec/mock-yum" (argv.drop 1) true
    | e => .checkFailed e

/-- POSIX `dirname` as used by `do_pack` on `argv[3]`: strip trailing
separators, strip the last component, strip the separators before it;
`"."` when no directory part remains, `"/"` for root. -/
def dirnameModel (s : String) : String :=
  let r := s.toList.reverse
  let r1 := r.dropWhile (fun c => c = '/')
  let r2 := r1.dropWhile (fun c => ¬ c = '/')
  let r3 := r2.dropWhile (fun c => c = '/')
  if r2.isEmpty then
    if r1.isEmpty && ¬ r.isEmpty then "/" else "."
  else if r3.isEmpty then "/"
  else String.mk r3.reverse

/-- Compression flag selection of `do_pack` (mock-helper.c:437-442). -/
def packFlag (a3 : String) : String :=
  if strstrB ['.', 'b', 'z', '2'] a3.toList then "-jcf"
  else if strstrB ['.', 'g', 'z'] a3.toList then "-zcf"
  else "-cf"

/-- `do_pack` (mock-helper.c:404-449): argument count, `check_dir_allowed`
on `argv[2]`, `chdir`, then `check_dir_allowed` on `dirname (argv[3])`
before the (result-ignored) `mkdir`/`chown`, then the tar invocation.
`chdir` is modelled as succeeding exactly when the target is a directory
in `fs`; the `mkdir`, `getgrnam` and `chown` side effects have no bearing
on control flow and are not modelled. -/
def do_pack (fs : String → Option FType) (rootsdir : String) (argv : List String) :
    RunResult :=
  if argv.length < 5 then .argCount
  else
    match check_dir_allowed fs rootsdir (argv.getD 2 "") with
    | .ok =>
      if ¬ fs (argv.getD 2 "") = some .dir then .chdirFailed
      else
        match check_dir_allowed fs rootsdir (dirnameModel (argv.getD 3 "")) with
        | .ok =>
          .exec "/bin/tar"
            ["tar", "--one-file-system", packFlag (argv.getD 3 ""),
              argv.getD 3 "", argv.getD 4 ""] false
        | e => .checkFailed e
    | e => .checkFailed e

/-- One entry returned by `readdir` on `/proc`: its name and whether
`d_type == DT_DIR`. -/
structure DirEnt where
  d_name : String
  dtypeIsDir : Bool
deriving DecidableEq, Repr

/-- The `/^\d+$/` test of `do_orphanskill` (mock-helper.c:578-584): the
scan loop proceeds only when the entry name is non-empty and all
digits. -/
def allDigitsName (s : String) : Bool :=
  ¬ s.toList.isEmpty && s.toList.all Char.isDigit

/-- `atoi` on an all-digit entry name. -/
def atoiModel (s : String) : Nat :=
  s.toList.foldl (fun n c => n * 10 + (c.toNat - 48)) 0

/-- The match test of the reaper loop (mock-helper.c:596-601):
`readlink` into a buffer of `chrootdir_len = strlen (chrootdir) + 1`
bytes returns `min (strlen target) chrootdir_len` bytes; the candidate
matches when that count equals `chrootdir_len - 1` and `memcmp` over
those bytes agrees with `chrootdir`. -/
def readlinkMatches (target chrootdir : String) : Bool :=
  min target.length (chrootdir.length + 1) == chrootdir.length
    && target.toList.take chrootdir.length == chrootdir.toList

/-- Outcome of the reaper: `fatal` is a call to `error (...)` (process
exit); `done killed` lists, in scan order, the pids passed to
`kill (pid, SIGKILL)` by `orphanskill_pid`. -/
inductive OrphanOutcome where
  | fatal
  | done (killed : List Nat)
deriving DecidableEq, Repr

/-- The `readdir` loop of `do_orphanskill` (mock-helper.c:565-604)
together with `orphanskill_pid` (mock-helper.c:517-537): skip
non-directories, non-numeric names, over-long `snprintf` results and
candidates whose `readlink` fails (`targets pid = none`) or does not
match; on a match, `orphanskill_pid` aborts fatally when the pid is the
reaper's own, otherwise sends SIGKILL and continues the scan. -/
def orphanskillScan (targets : Nat → Option String) (selfPid : Nat)
    (chrootdir : String) : List DirEnt → OrphanOutcome
  | [] => .done []
  | e :: rest =>
    if e.dtypeIsDir = false then orphanskillScan targets selfPid chrootdir rest
    else if allDigitsName e.d_name = false then
      orphanskillScan targets selfPid chrootdir rest
    else if 64 ≤ ("/proc/" ++ toString (atoiModel e.d_name) ++ "/root").length then
      orphanskillScan targets selfPid chrootdir rest
    else
      match targets (atoiModel e.d_name) with
      | none => orphanskillScan targets selfPid chrootdir rest
      | some t =>
        if readlinkMatches t chrootdir = false then
          orphanskillScan targets selfPid chrootdir rest
        else if atoiModel e.d_name = selfPid then .fatal
        else
          match orphanskillScan targets selfPid chrootdir rest with
          | .fatal => .fatal
          | .done ks => .done (atoiModel e.d_name :: ks)

/-- `do_orphanskill` (mock-helper.c:539-605): argument-count check and
`check_dir_allowed` on `argv[2]` (fatal on failure), then the scan of
the given `/proc` listing. -/
def do_orphanskill (fs : String → Option FType) (targets : Nat → Option String)
    (selfPid : Nat) (rootsdir : String) (argv : List String)
    (ents : List DirEnt) : OrphanOutcome :=
  if argv.length < 3 then .fatal
  else
    match check_dir_allowed fs rootsdir (argv.getD 2 "") with
    | .ok => orphanskillScan targets selfPid (argv.getD 2 "") ents
    | _ => .fatal

/-- A filesystem in which `/var/lib/mock/root` is the only entry: the
parent directory of the pack output path does not exist. -/
def fsRootOnly : String → Option FType :=
  fun p => if p = "/var/lib/mock/root" then some FType.dir else none

/-- A filesystem in which `/var/lib/mock/b` is the only entry. -/
def fsBuildOnly : String → Option FType :=
  fun p => if p = "/var/lib/mock/b" then some FType.dir else none

/-- A caller environment that sets every allow-listed variable. -/
def fullCallerEnv : String → Option String :=
  fun n => if n ∈ ALLOWED_ENV then some "1" else none

/-- The disjunction of branch guards actually tested by `do_mount`:
initial-segment matches with the lengths passed to `strncmp`, not
whole-token equality. -/
def mountTypeOk (a2 a3 : String) : Prop :=
  (strncmpEq "-t" a2 2 = true
      ∧ (strncmpEq "proc" a3 4 = true ∨ strncmpEq "devpts" a3 6 = true))
    ∨ (strncmpEq "--bind" a2 6 = true ∧ strncmpEq "/dev" a3 4 = true)

/-- A process table for the reaper: pid 42 is chrooted to
`/var/lib/mock/r`, pid 43 to the strict extension `/var/lib/mock/r/s`. -/
def targetsW : Nat → Option String :=
  fun p =>
    if p = 42 then some "/var/lib/mock/r"
    else if p = 43 then some "/var/lib/mock/r/s"
    else none

/-- A `/proc` listing: two numeric process directories, a non-numeric
directory and a non-directory entry. -/
def entsW : List DirEnt :=
  [⟨"42", true⟩, ⟨"43", true⟩, ⟨"tty", true⟩, ⟨"10", false⟩]

/-- A filesystem in which `/var/lib/mock/r` is the only entry. -/
def fsOrphan : String → Option FType :=
  fun p => if p = "/var/lib/mock/r" then some FType.dir else none

end MockHelper

namespace MockHelper

/-- C1: the spec says `check_allowed` fails with the trailing-separator
error whenever the last character of the path is `/`; the code instead
reads `rootsdir[strlen (given) - 1]` (here the NUL terminator of
`rootsdir`), so the path `"/var/lib/mock/"`, whose last character is a
separator, passes every check. -/
theorem check_allowed_trailing_slash_accepted :
    check_allowed "/var/lib/mock" "/var/lib/mock/" = CheckResult.ok
      ∧ "/var/lib/mock/".toList.getLast? = some '/' := by
  decide

/-- C10: `check_allowed` demands only that the path begin with the
literal bytes of the allowed root, with no separator boundary after the
prefix, so the sibling entry `"/var/lib/mockX"` passes all three string
checks even though it is not the root itself and does not lie under
`"/var/lib/mock/"`. -/
theorem check_allowed_accepts_sibling :
    check_allowed "/var/lib/mock" "/var/lib/mockX" = CheckResult.ok
      ∧ "/var/lib/mockX".toList.take 14 ≠ "/var/lib/mock/".toList
      ∧ "/var/lib/mockX" ≠ "/var/lib/mock" := by
  decide

/-- C5 (evaluation at the failing input): `do_yum` compares only the
first six characters of `argv[2]` against `"--installroot"`, so the
token `"--instantly"`, which is not `"--installroot"`, is accepted and
the helper proceeds to exec the yum wrapper. -/
theorem do_yum_accepts_truncated_flag :
    do_yum fsRootOnly "/var/lib/mock"
        ["mock-helper", "yum", "--instantly", "/var/lib/mock/root", "update"]
      = RunResult.exec "/usr/libexec/mock-yum"
          ["yum", "--instantly", "/var/lib/mock/root", "update"] true
      ∧ "--instantly" ≠ "--installroot" := by
  decide

/-- C7 (evaluation at the failing input): when the parent directory of
the output archive path does not exist, `do_pack` dies in
`check_dir_allowed` (whose `lstat` fails) and never reaches the
archiver, contrary to the create-then-archive behaviour the spec
states. -/
theorem do_pack_missing_parent_fatal :
    do_pack fsRootOnly "/var/lib/mock"
        ["mock-helper", "pack", "/var/lib/mock/root",
          "/var/lib/mock/cache/c.tar.gz", "."]
      = RunResult.checkFailed CheckResult.lookupFailed
      ∧ dirnameModel "/var/lib/mock/cache/c.tar.gz" = "/var/lib/mock/cache"
      ∧ fsRootOnly "/var/lib/mock/cache" = none := by
  decide

/-- C9 (evaluation at the failing input): with the SELinux preload added
and all six allow-listed variables set, `do_command`'s environment array
has as many filled entries as its capacity `3 + ALLOWED_ENV_SIZE`, not
strictly fewer, leaving no slot for the terminating null entry. -/
theorem buildEnv_can_fill_capacity :
    (buildEnv fullCallerEnv true true).length = envCapacity
      ∧ ¬ (buildEnv fullCallerEnv true true).length < envCapacity := by
  decide

/-- C2 (counterexample): the pair at positions 2 and 3 is
`("-tx", "procx")`, which is none of the pairs `-t proc`, `-t devpts`,
`--bind /dev`, yet `do_mount` does not fail with the unallowed-mount-type
error: it accepts the request and execs the mount binary. -/
theorem do_mount_accepts_near_miss_pair :
    do_mount "/var/lib/mock"
        ["mock-helper", "mount", "-tx", "procx", "proc", "/var/lib/mock/pts"]
      = RunResult.exec "/bin/mount"
          ["mount", "-tx", "procx", "proc", "/var/lib/mock/pts"] false
      ∧ ¬ ("-tx" = "-t" ∧ "procx" = "proc")
      ∧ ¬ ("-tx" = "-t" ∧ "procx" = "devpts")
      ∧ ¬ ("-tx" = "--bind" ∧ "procx" = "/dev") := by
  decide

/-- C8 (counterexample): the request below has exactly 5 arguments, so
it passes the minimum-argument check and takes the `-t proc` branch, yet
the lookup at index 5 yields no value — the C code reads the argv NULL
sentinel there. -/
theorem do_mount_argc5_reads_sentinel :
    ¬ (["mock-helper", "mount", "-t", "proc", "/var/lib/mock/p"] : List String).length < 5
      ∧ strncmpEq "-t" "-t" 2 = true
      ∧ strncmpEq "proc" "proc" 4 = true
      ∧ (["mock-helper", "mount", "-t", "proc", "/var/lib/mock/p"] : List String).get? 5 = none
      ∧ do_mount "/var/lib/mock" ["mock-helper", "mount", "-t", "proc", "/var/lib/mock/p"]
          = RunResult.nullDeref := by
  decide

/-- C4: the environment vector built by `do_command` contains exactly
the fixed PATH entry, the fixed HOME entry, the preload entry when
SELinux is enabled and the operation opted in, and one `NAME=value`
entry for each allow-listed name set in the caller's environment; no
other caller-set name can appear. -/
theorem buildEnv_exact_membership (callerEnv : String → Option String) (mac pre : Bool)
    (e : String) :
    e ∈ buildEnv callerEnv mac pre ↔
      e = "PATH=/bin:/usr/bin:/usr/sbin" ∨ e = "HOME=/root"
        ∨ (mac = true ∧ pre = true ∧ e = "LD_PRELOAD=libselinux-mock.so")
        ∨ ∃ n, n ∈ ALLOWED_ENV ∧ ∃ v, callerEnv n = some v ∧ n ++ "=" ++ v = e := by
  unfold buildEnv
  cases mac <;> cases pre <;>
    simp [List.mem_append, List.mem_filterMap, Option.map_eq_some']

/-- C3: once the `-rf` flag and the directory at position 3 validate,
`do_rm` execs the trusted rm binary on the whole request tail from
position 1; no hypothesis constrains the extra arguments, so arbitrary
further paths reach rm unvalidated. -/
theorem do_rm_tail_unchecked (fs : String → Option FType) (rootsdir : String)
    (argv extra : List String)
    (h4 : 4 ≤ argv.length)
    (hflag : strncmpEq "-rf" (argv.getD 2 "") 4 = true)
    (hdir : check_dir_allowed fs rootsdir (argv.getD 3 "") = CheckResult.ok) :
    do_rm fs rootsdir (argv ++ extra)
      = RunResult.exec "/bin/rm" (argv.drop 1 ++ extra) false := by
  have h2 : (2 : Nat) < argv.length := by omega
  have h3 : (3 : Nat) < argv.length := by omega
  have h1 : (1 : Nat) ≤ argv.length := by omega
  have hlen : ¬ (argv.length + extra.length < 4) := by omega
  unfold do_rm
  rw [List.getD_append _ _ _ _ h2, List.getD_append _ _ _ _ h3,
    List.drop_append_of_le_length h1]
  simp only [List.getD, List.get?_eq_getElem?] at hflag hdir
  simp [hlen, hflag, hdir]

/-- Witness for C3: the extra argument `/etc/passwd`, far outside the
allowed root, is handed to the rm binary. -/
theorem do_rm_tail_unchecked_witness :
    do_rm fsBuildOnly "/var/lib/mock"
        (["mock-helper", "rm", "-rf", "/var/lib/mock/b"] ++ ["/etc/passwd"])
      = RunResult.exec "/bin/rm"
          (["mock-helper", "rm", "-rf", "/var/lib/mock/b"].drop 1 ++ ["/etc/passwd"])
          false :=
  do_rm_tail_unchecked fsBuildOnly "/var/lib/mock"
    ["mock-helper", "rm", "-rf", "/var/lib/mock/b"] ["/etc/passwd"]
    (by decide) (by decide) (by decide)

/-- C2 (amended): for a mount request with at least 5 arguments,
`do_mount` fails with the unallowed-mount-type error exactly when the
tokens at positions 2 and 3 fail every initial-segment guard; the
guards accept any tokens beginning with `-t`/`proc`, `-t`/`devpts` or
`--bind`//`dev`, not only the exact pairs. -/
theorem do_mount_unallowed_characterization (rootsdir : String) (argv : List String)
    (h : 5 ≤ argv.length) :
    do_mount rootsdir argv = RunResult.unallowedMountType
      ↔ ¬ mountTypeOk (argv.getD 2 "") (argv.getD 3 "") := by
  have hlen : ¬ argv.length < 5 := by omega
  unfold do_mount mountTypeOk
  cases hb1 : strncmpEq "-t" (argv.getD 2 "") 2 <;>
  cases hb2 : strncmpEq "proc" (argv.getD 3 "") 4 <;>
  cases hb3 : strncmpEq "devpts" (argv.getD 3 "") 6 <;>
  cases hb4 : strncmpEq "--bind" (argv.getD 2 "") 6 <;>
  cases hb5 : strncmpEq "/dev" (argv.getD 3 "") 4 <;>
    simp [hlen, hb1, hb2, hb3, hb4, hb5]
  all_goals
    cases h5 : argv[5]? with
    | none =>
      first
        | simp [h5]
        | (split <;> simp)
    | some a5 =>
      first
        | (simp only [h5]
           split <;> simp)
        | (split <;> simp)

/-- Witness for the amended C2 at a concrete rejected request. -/
theorem do_mount_unallowed_characterization_witness :
    5 ≤ (["mock-helper", "mount", "-x", "foo", "a", "b"] : List String).length
      ∧ (do_mount "/var/lib/mock" ["mock-helper", "mount", "-x", "foo", "a", "b"]
            = RunResult.unallowedMountType
          ↔ ¬ mountTypeOk ((["mock-helper", "mount", "-x", "foo", "a", "b"] :
                List String).getD 2 "")
              ((["mock-helper", "mount", "-x", "foo", "a", "b"] : List String).getD 3 "")) :=
  ⟨by decide,
    do_mount_unallowed_characterization "/var/lib/mock"
      ["mock-helper", "mount", "-x", "foo", "a", "b"] (by decide)⟩

/-- C8 (amended): with at least 6 arguments every read of `do_mount` is
within the argument vector, so the NULL-sentinel read modelled by
`nullDeref` cannot occur; the counterexample above shows it does occur
at exactly 5 arguments. -/
theorem do_mount_argc6_in_bounds (rootsdir : String) (argv : List String)
    (h : 6 ≤ argv.length) :
    do_mount rootsdir argv ≠ RunResult.nullDeref := by
  have hlen : ¬ argv.length < 5 := by omega
  have hlt : 5 < argv.length := by omega
  have h5 : argv[5]? = some argv[5] := List.getElem?_eq_getElem hlt
  unfold do_mount
  simp [hlen, h5]
  repeat' split
  all_goals simp

/-- Witness for the amended C8 at a concrete 6-argument request. -/
theorem do_mount_argc6_in_bounds_witness :
    6 ≤ (["mock-helper", "mount", "-t", "proc", "proc", "/var/lib/mock/p"] :
          List String).length
      ∧ do_mount "/var/lib/mock"
          ["mock-helper", "mount", "-t", "proc", "proc", "/var/lib/mock/p"]
          ≠ RunResult.nullDeref :=
  ⟨by decide,
    do_mount_argc6_in_bounds "/var/lib/mock"
      ["mock-helper", "mount", "-t", "proc", "proc", "/var/lib/mock/p"] (by decide)⟩

/-- The reaper's match test holds exactly on the byte-identical target:
truncating `readlink` to `strlen (chrootdir) + 1` bytes makes both a
shorter and a strictly longer resolved target fail the length
comparison. -/
theorem readlinkMatches_iff (t c : String) : readlinkMatches t c = true ↔ t = c := by
  unfold readlinkMatches
  simp only [Bool.and_eq_true, beq_iff_eq]
  have htl : t.toList.length = t.length := rfl
  constructor
  · rintro ⟨h1, h2⟩
    have hlen : t.length = c.length := by
      rw [Nat.min_def] at h1
      split at h1 <;> omega
    rw [← String.toList_inj]
    rw [show c.length = t.toList.length by rw [htl, hlen], List.take_length] at h2
    exact h2
  · rintro rfl
    refine ⟨Nat.min_eq_left (Nat.le_succ _), ?_⟩
    rw [show t.length = t.toList.length from rfl, List.take_length]

/-- Every pid the scan kills has a resolved root target byte-identical
to the chroot path and is not the reaper's own pid. -/
theorem orphanskillScan_done_subset (targets : Nat → Option String) (selfPid : Nat)
    (chrootdir : String) :
    ∀ ents killed,
      orphanskillScan targets selfPid chrootdir ents = OrphanOutcome.done killed →
      ∀ pid, pid ∈ killed → targets pid = some chrootdir ∧ pid ≠ selfPid := by
  intro ents
  induction ents with
  | nil =>
    intro killed h pid hmem
    simp only [orphanskillScan] at h
    injection h with hk
    subst hk
    simp at hmem
  | cons e rest ih =>
    intro killed h pid hmem
    simp only [orphanskillScan] at h
    by_cases h1 : e.dtypeIsDir = false
    · rw [if_pos h1] at h
      exact ih killed h pid hmem
    rw [if_neg h1] at h
    by_cases h2 : allDigitsName e.d_name = false
    · rw [if_pos h2] at h
      exact ih killed h pid hmem
    rw [if_neg h2] at h
    by_cases h3 : 64 ≤ ("/proc/" ++ toString (atoiModel e.d_name) ++ "/root").length
    · rw [if_pos h3] at h
      exact ih killed h pid hmem
    rw [if_neg h3] at h
    rcases hm : targets (atoiModel e.d_name) with _ | t
    · simp only [hm] at h
      exact ih killed h pid hmem
    simp only [hm] at h
    by_cases h4 : readlinkMatches t chrootdir = false
    · rw [if_pos h4] at h
      exact ih killed h pid hmem
    rw [if_neg h4] at h
    by_cases h5 : atoiModel e.d_name = selfPid
    · rw [if_pos h5] at h
      cases h
    rw [if_neg h5] at h
    rcases hs : orphanskillScan targets selfPid chrootdir rest with _ | ks
    · simp only [hs] at h
      cases h
    simp only [hs] at h
    injection h with hk
    subst hk
    have ht : t = chrootdir := by
      refine (readlinkMatches_iff t chrootdir).mp ?_
      cases hb : readlinkMatches t chrootdir
      · exact absurd hb h4
      · rfl
    rcases List.mem_cons.mp hmem with rfl | hmem2
    · exact ⟨by rw [hm, ht], h5⟩
    · exact ih ks hs pid hmem2

/-- C6: when the reaper returns normally, every signalled pid had a
resolved root target byte-identical to the validated chroot path
(`argv[2]`) and was not the reaper's own pid; and a scan that reaches a
matching candidate carrying the reaper's own pid aborts with a fatal
error instead of signalling. -/
theorem orphanskill_exact_match_and_self_guard :
    (∀ (fs : String → Option FType) (targets : Nat → Option String)
        (selfPid : Nat) (rootsdir : String) (argv : List String)
        (ents : List DirEnt) (killed : List Nat),
        do_orphanskill fs targets selfPid rootsdir argv ents = OrphanOutcome.done killed →
        ∀ pid, pid ∈ killed → targets pid = some (argv.getD 2 "") ∧ pid ≠ selfPid)
      ∧ (∀ (targets : Nat → Option String) (selfPid : Nat) (chrootdir : String)
          (ents : List DirEnt) (e : DirEnt),
          e.dtypeIsDir = true → allDigitsName e.d_name = true →
          atoiModel e.d_name = selfPid →
          ("/proc/" ++ toString selfPid ++ "/root").length < 64 →
          targets selfPid = some chrootdir →
          orphanskillScan targets selfPid chrootdir (e :: ents) = OrphanOutcome.fatal) := by
  constructor
  · intro fs targets selfPid rootsdir argv ents killed h pid hmem
    unfold do_orphanskill at h
    by_cases hl : argv.length < 3
    · rw [if_pos hl] at h
      cases h
    rw [if_neg hl] at h
    rcases hc : check_dir_allowed fs rootsdir (argv.getD 2 "") <;>
      simp only [hc] at h <;>
      first
        | exact orphanskillScan_done_subset targets selfPid (argv.getD 2 "")
            ents killed h pid hmem
        | cases h
  · intro targets selfPid chrootdir ents e hd hdig hatoi hlen htgt
    have hmatch : readlinkMatches chrootdir chrootdir = true :=
      (readlinkMatches_iff chrootdir chrootdir).mpr rfl
    simp only [orphanskillScan, hatoi, htgt]
    rw [if_neg (by simp [hd])]
    rw [if_neg (by simp [hdig])]
    rw [if_neg (by omega)]
    rw [if_neg (by simp [hmatch])]
    simp

/-- Witness for C6: in a table where pid 42 is chrooted to the target
path and pid 43 to a strict extension of it, the reaper kills exactly
pid 42, and the theorem instantiates on it. -/
theorem orphanskill_exact_match_and_self_guard_witness :
    do_orphanskill fsOrphan targetsW 7 "/var/lib/mock"
        ["mock-helper", "orphanskill", "/var/lib/mock/r"] entsW
      = OrphanOutcome.done [42]
      ∧ targetsW 42 = some "/var/lib/mock/r" ∧ 42 ≠ 7 :=
  ⟨by decide,
    orphanskill_exact_match_and_self_guard.1 fsOrphan targetsW 7 "/var/lib/mock"
      ["mock-helper", "orphanskill", "/var/lib/mock/r"] entsW [42]
      (by decide) 42 (by decide)⟩

end MockHelper
